import Mathlib

/-!
Verification of the idempotent-reconciliation behaviour of the oVirt Ansible
modules (`src/library/ovirt_*.py`).  The per-module `build_entity` /
`update_check` / hook functions are translated directly from the source files.
The generic engine (`BaseModule.create` / `remove` / `action`, the `equal`
helper and the `wait` poller) lives in `ansible.module_utils.ovirt`, which is
not part of this repository's sources; those pieces are modelled from the
specification and are marked as such in their doc comments.
-/

namespace Ovirt

/-- Dynamic values as the Python modules handle them: `None`, strings,
integers, booleans, ovirtsdk4 enum instances (an enum class name together
with the member's value string), and lists of strings (the only list shape
these modules compare or test, e.g. a network's `usages`). -/
inductive PyVal
  | none
  | str (s : String)
  | int (n : Int)
  | bool (b : Bool)
  | enum (cls : String) (val : String)
  | strlist (xs : List String)
deriving DecidableEq

/-- Python `==` on the values above.  An ovirtsdk4 enum is a `enum.Enum`
member, whose `__eq__` is identity-based: it never equals a plain string,
even the string equal to its value.  (`bool`/`int` cross-equality is not
exercised by any comparison in these modules.) -/
def pyEq : PyVal → PyVal → Bool
  | PyVal.none, PyVal.none => true
  | PyVal.str a, PyVal.str b => a == b
  | PyVal.int a, PyVal.int b => a == b
  | PyVal.bool a, PyVal.bool b => a == b
  | PyVal.enum c v, PyVal.enum c2 v2 => c == c2 && v == v2
  | PyVal.strlist a, PyVal.strlist b => a == b
  | _, _ => false

/-- Python truthiness of the values above (`None`, `''`, `0`, `False` and
`[]` are falsy; everything else is truthy). -/
def truthy : PyVal → Bool
  | PyVal.none => false
  | PyVal.str s => !(s == "")
  | PyVal.int n => !(n == 0)
  | PyVal.bool b => b
  | PyVal.enum _ _ => true
  | PyVal.strlist xs => !xs.isEmpty

/-- Python `str()` of the values above.  ovirtsdk4 enums define `__str__`
to return the member's value string, which is what the clusters module
relies on when it writes `str(entity.switch_type)`. -/
def pyStr : PyVal → PyVal
  | PyVal.none => PyVal.str "None"
  | PyVal.str s => PyVal.str s
  | PyVal.int n => PyVal.str (toString n)
  | PyVal.bool b => PyVal.str (if b then "True" else "False")
  | PyVal.enum _ v => PyVal.str v
  | PyVal.strlist _ => PyVal.str "list"

/-- The string payload of a string value (used where the source constructs
an ovirtsdk4 enum from a parameter that the argument spec restricts to the
enum's member strings, e.g. `otypes.KdumpStatus(params['kdump_integration'])`). -/
def asStr : PyVal → String
  | PyVal.str s => s
  | _ => ""

/-- Python exceptions that the translated code can raise. -/
inductive PyErr
  | attributeError
  | indexError
  | valueError
deriving DecidableEq

deriving instance DecidableEq for Except

/-- Modelled from the spec: the `equal` comparator helper of
`ansible.module_utils.ovirt` (not under `src/`).  Per the spec's don't-care
policy, a desired field value of `None` never causes inequality; otherwise
it is a plain field equality test. -/
def equal (p x : PyVal) : Bool :=
  match p with
  | PyVal.none => true
  | _ => pyEq p x

/-- Remote-interaction events: a mutating remote call (add / update /
remove / action), or handing control to the Waiter. -/
inductive Ev
  | call (name : String)
  | wait (desc : String)
deriving DecidableEq

def isCallEv : Ev → Bool
  | Ev.call _ => true
  | _ => false

def isWaitEv : Ev → Bool
  | Ev.wait _ => true
  | _ => false

def mutCount (tr : List Ev) : Nat := (tr.filter isCallEv).length

def waitCount (tr : List Ev) : Nat := (tr.filter isWaitEv).length

/-- Every prefix of the trace contains at most `k` more mutating calls than
completed waits; `k = 1` is the spec's at-most-one-mutation-per-wait
invariant. -/
def waiterOkUpTo (k : Nat) (tr : List Ev) : Bool :=
  (List.range (tr.length + 1)).all
    (fun i => decide (mutCount (tr.take i) ≤ waitCount (tr.take i) + k))

/-- Host statuses used by the hosts / host-pm modules
(`otypes.HostStatus`). -/
inductive HostStatus
  | up
  | down
  | maintenance
  | installing
deriving DecidableEq, Fintype

/-- Storage-domain statuses used by the storage-domains module
(`otypes.StorageDomainStatus`). -/
inductive SdStatus
  | active
  | maintenance
  | unattached
  | locked
deriving DecidableEq, Fintype

/-- Snapshot statuses used by the snapshots module
(`otypes.SnapshotStatus`). -/
inductive SnapStatus
  | ok
  | in_preview
  | locked
deriving DecidableEq, Fintype

/-- The `otypes.Cluster(name=...)` reference as built by `build_entity`. -/
structure OvClusterRef where
  name : PyVal
deriving DecidableEq

/-- The `otypes.Spm(priority=...)` sub-object. -/
structure OvSpm where
  priority : PyVal
deriving DecidableEq

/-- The `otypes.Ssh(authentication_method=...)` sub-object. -/
structure OvSsh where
  authentication_method : PyVal
deriving DecidableEq

/-- The attributes of an `otypes.Host` that `ovirt_hosts.py` builds and
compares (the remote entity returned by the server carries the same
attribute shapes: `kdump_status` is a `KdumpStatus` enum member, `spm` a
nested `Spm` struct). -/
structure OvHost where
  name : PyVal
  cluster : Option OvClusterRef
  comment : PyVal
  address : PyVal
  root_password : PyVal
  ssh : Option OvSsh
  kdump_status : PyVal
  spm : Option OvSpm
  override_iptables : PyVal
deriving DecidableEq

/-- Module parameters of `ovirt_hosts.py` (see its `argument_spec`):
`kdump_integration` is `None` or one of the strings `enabled` / `disabled`,
`spm_priority` is `None` or an int. -/
structure HostParams where
  name : PyVal
  comment : PyVal
  cluster : PyVal
  address : PyVal
  password : PyVal
  public_key : PyVal
  kdump_integration : PyVal
  spm_priority : PyVal
  override_iptables : PyVal
deriving DecidableEq

namespace HostsModule

/-- Translation of `HostsModule.build_entity` (src/library/ovirt_hosts.py lines 122-141):
each optional sub-object is built only when the governing parameter is
truthy; `kdump_status` is the enum `otypes.KdumpStatus(params['kdump_integration'])`. -/
def build_entity (p : HostParams) : OvHost :=
  { name := p.name
    cluster := if truthy p.cluster then some { name := p.cluster } else Option.none
    comment := p.comment
    address := p.address
    root_password := p.password
    ssh := if truthy p.public_key then some { authentication_method := PyVal.str "publickey" }
           else Option.none
    kdump_status := if truthy p.kdump_integration then
        PyVal.enum "KdumpStatus" (asStr p.kdump_integration)
      else PyVal.none
    spm := if truthy p.spm_priority then some { priority := p.spm_priority } else Option.none
    override_iptables := p.override_iptables }

/-- Translation of `HostsModule.update_check` (src/library/ovirt_hosts.py lines 143-148):
`equal(comment) and equal(kdump_integration, entity.kdump_status) and
equal(spm_priority, entity.spm.priority)`, with Python short-circuiting;
`entity.spm.priority` raises `AttributeError` when `entity.spm` is `None`. -/
def update_check (p : HostParams) (e : OvHost) : Except PyErr Bool :=
  if !(equal p.comment e.comment) then Except.ok false
  else if !(equal p.kdump_integration e.kdump_status) then Except.ok false
  else
    match e.spm with
    | Option.none => Except.error PyErr.attributeError
    | some spm => Except.ok (equal p.spm_priority spm.priority)

/-- Modelled from the spec: `BaseModule.create` of
`ansible.module_utils.ovirt` (not under `src/`), specialised to the hosts
module's builder and comparator.  Absent entity: build and add
(`changed=true`).  Present entity: if the comparator reports equal return
`changed=false`, otherwise issue an update with the built entity
(`changed=true`).  The returned `Option OvHost` is the remote entity after
the call (the remote stores the built attributes; under check mode nothing
is sent). -/
def create (p : HostParams) (checkMode : Bool) (existing : Option OvHost) :
    Except PyErr (Bool × Option OvHost) :=
  match existing with
  | Option.none =>
    Except.ok (true, if checkMode then Option.none else some (build_entity p))
  | some e =>
    match update_check p e with
    | Except.error er => Except.error er
    | Except.ok true => Except.ok (false, some e)
    | Except.ok false =>
      Except.ok (true, if checkMode then some e else some (build_entity p))

end HostsModule

/-- A concrete hosts spec: comment, kdump integration and SPM priority all
supplied (the fields named by claim C1). -/
def hostsP0 : HostParams :=
  { name := PyVal.str "h1"
    comment := PyVal.str "c"
    cluster := PyVal.str "Default"
    address := PyVal.str "10.34.61.145"
    password := PyVal.str "secret"
    public_key := PyVal.bool false
    kdump_integration := PyVal.str "enabled"
    spm_priority := PyVal.int 5
    override_iptables := PyVal.none }

/-- The `otypes.Vlan(tag)` sub-object — the positional argument is the vlan `id`. -/
structure OvVlan where
  id : PyVal
deriving DecidableEq

/-- The `otypes.DataCenter(name=...)` reference. -/
structure OvDataCenterRef where
  name : PyVal
deriving DecidableEq

/-- The attributes of an `otypes.Network` that `ovirt_networks.py` builds
and compares. -/
structure OvNetwork where
  name : PyVal
  comment : PyVal
  description : PyVal
  data_center : Option OvDataCenterRef
  vlan : Option OvVlan
  usages : PyVal
deriving DecidableEq

/-- Module parameters of `ovirt_networks.py` (see its `argument_spec`):
`vlan_tag` is `None` or an int, `vm_network` is `None` or a bool. -/
structure NetworkParams where
  name : PyVal
  comment : PyVal
  description : PyVal
  datacenter_name : PyVal
  vlan_tag : PyVal
  vm_network : PyVal
deriving DecidableEq

/-- Attribute access `getattr(entity.vlan, 'id', None)` from the networks `update_check`
(`getattr` with a default does not raise on `None`). -/
def vlanIdAttr (v : Option OvVlan) : PyVal :=
  match v with
  | some vl => vl.id
  | Option.none => PyVal.none

namespace NetworksModule

/-- Translation of `NetworksModule.build_entity` (src/library/ovirt_networks.py lines
86-100): in particular
`usages=(['vm'] if vm_network else ['']) if vm_network is not None else None`. -/
def build_entity (p : NetworkParams) : OvNetwork :=
  { name := p.name
    comment := p.comment
    description := p.description
    data_center := if truthy p.datacenter_name then some { name := p.datacenter_name }
                   else Option.none
    vlan := if truthy p.vlan_tag then some { id := p.vlan_tag } else Option.none
    usages := if p.vm_network ≠ PyVal.none then
        (if truthy p.vm_network then PyVal.strlist ["vm"] else PyVal.strlist [""])
      else PyVal.none }

/-- Translation of `NetworksModule.update_check` (src/library/ovirt_networks.py lines
102-108): the last conjunct compares `vm_network` against
`True if entity.usages else False`, i.e. the truthiness of the usages list. -/
def update_check (p : NetworkParams) (e : OvNetwork) : Bool :=
  equal p.comment e.comment &&
  equal p.description e.description &&
  equal p.vlan_tag (vlanIdAttr e.vlan) &&
  equal p.vm_network (PyVal.bool (truthy e.usages))

/-- Modelled from the spec: `BaseModule.create` decision logic (the engine
is in `ansible.module_utils.ovirt`, not under `src/`), specialised to the
networks module: absent entity → add built entity, `changed=true`; present
entity → `changed = not update_check`, update sends the built entity. -/
def create (p : NetworkParams) (checkMode : Bool) (existing : Option OvNetwork) :
    Bool × Option OvNetwork :=
  match existing with
  | Option.none => (true, if checkMode then Option.none else some (build_entity p))
  | some e =>
    if update_check p e then (false, some e)
    else (true, if checkMode then some e else some (build_entity p))

end NetworksModule

/-- The `otypes.Cpu(architecture=..., type=...)` sub-object as carried by a cluster
entity (`architecture` is an `Architecture` enum member on the wire). -/
structure OvCpu where
  architecture : PyVal
  type : PyVal
deriving DecidableEq

/-- The `otypes.Version(major=..., minor=...)` sub-object. -/
structure OvVersion where
  major : PyVal
  minor : PyVal
deriving DecidableEq

/-- The attributes of an `otypes.Cluster` that `ovirt_clusters.py`
compares (`switch_type` is a `SwitchType` enum member on the wire). -/
structure ClusterEntity where
  name : PyVal
  comment : PyVal
  description : PyVal
  switch_type : PyVal
  cpu : Option OvCpu
  version : Option OvVersion
deriving DecidableEq

/-- Module parameters of `ovirt_clusters.py` (see its `argument_spec`):
all default to `None`; `compatibility_version` is a string such as `"4.0"`. -/
structure ClusterParams where
  name : PyVal
  datacenter_name : PyVal
  comment : PyVal
  description : PyVal
  network : PyVal
  cpu_arch : PyVal
  cpu_type : PyVal
  switch_type : PyVal
  compatibility_version : PyVal
deriving DecidableEq

/-- The argument shapes accepted by `ClustersModule.__get_major` /
`__get_minor`: `None`, an `otypes.Version`, or a version string. -/
inductive FullVer
  | fvNone
  | fvStr (s : String)
  | fvVer (major minor : PyVal)
deriving DecidableEq

/-- The `compatibility_version` parameter as passed to `__get_major` /
`__get_minor` (the module passes the raw string parameter or `None`). -/
def fvOfParam : PyVal → FullVer
  | PyVal.str s => FullVer.fvStr s
  | _ => FullVer.fvNone

/-- The `entity.version` attribute as passed to `__get_major` / `__get_minor`. -/
def fvOfVersion : Option OvVersion → FullVer
  | Option.none => FullVer.fvNone
  | some v => FullVer.fvVer v.major v.minor

/-- Python `int(s)`: raises `ValueError` on a malformed literal. -/
def intOfString (s : String) : Except PyErr PyVal :=
  match s.toInt? with
  | some n => Except.ok (PyVal.int n)
  | Option.none => Except.error PyErr.valueError

namespace ClustersModule

/-- Translation of `ClustersModule.__get_major` (src/library/ovirt_clusters.py lines
99-104): `None` propagates, an `otypes.Version` yields its `major`, a
string yields `int(full_version.split('.')[0])`. -/
def get_major : FullVer → Except PyErr PyVal
  | FullVer.fvNone => Except.ok PyVal.none
  | FullVer.fvVer ma _ => Except.ok ma
  | FullVer.fvStr s => intOfString ((s.splitOn ".").headD "")

/-- Translation of `ClustersModule.__get_minor` (src/library/ovirt_clusters.py lines
106-111): like `get_major` but `split('.')[1]` raises `IndexError` when
the string has no dot. -/
def get_minor : FullVer → Except PyErr PyVal
  | FullVer.fvNone => Except.ok PyVal.none
  | FullVer.fvVer _ mi => Except.ok mi
  | FullVer.fvStr s =>
    match (s.splitOn ".").get? 1 with
    | some t => intOfString t
    | Option.none => Except.error PyErr.indexError

/-- Translation of `ClustersModule.update_check` (src/library/ovirt_clusters.py lines
139-148), with Python's `and` short-circuiting preserved: conjuncts are
evaluated in source order, and `entity.cpu.architecture` /
`entity.cpu.type` raise `AttributeError` when `entity.cpu` is `None`; the
enum-typed attributes `switch_type` and `cpu.architecture` are compared
through `str(...)`. -/
def update_check (p : ClusterParams) (e : ClusterEntity) : Except PyErr Bool :=
  if !(equal p.comment e.comment) then Except.ok false
  else if !(equal p.description e.description) then Except.ok false
  else if !(equal p.switch_type (pyStr e.switch_type)) then Except.ok false
  else
    match e.cpu with
    | Option.none => Except.error PyErr.attributeError
    | some cpu =>
      if !(equal p.cpu_arch (pyStr cpu.architecture)) then Except.ok false
      else if !(equal p.cpu_type cpu.type) then Except.ok false
      else
        match get_minor (fvOfParam p.compatibility_version),
              get_minor (fvOfVersion e.version) with
        | Except.error er, _ => Except.error er
        | _, Except.error er => Except.error er
        | Except.ok minP, Except.ok minE =>
          if !(equal minP minE) then Except.ok false
          else
            match get_major (fvOfParam p.compatibility_version),
                  get_major (fvOfVersion e.version) with
            | Except.error er, _ => Except.error er
            | _, Except.error er => Except.error er
            | Except.ok majP, Except.ok majE => Except.ok (equal majP majE)

end ClustersModule

/-- A group as returned by the groups service search in
`ovirt_permissions.py`: its `namespace` attribute (spelled `nspace` here,
`namespace` being a Lean keyword) and its `domain.name` (flattened to
`domainName`; `__get_group` only reads `g.namespace` and `g.domain.name`). -/
structure OvGroup where
  name : PyVal
  nspace : PyVal
  domainName : PyVal
deriving DecidableEq

/-- A user as returned by the users service search in
`ovirt_permissions.py`. -/
structure OvUser where
  principal : PyVal
deriving DecidableEq

namespace PermissionsModule

/-- The per-group filter applied by `__get_group` when the name search
returned more than one group:
`equal(params['namespace'], g.namespace) and equal(params['authz_name'], g.domain.name)`. -/
def groupMatches (nspaceParam authzParam : PyVal) (g : OvGroup) : Bool :=
  equal nspaceParam g.nspace && equal authzParam g.domainName

/-- Translation of `__get_group` (src/library/ovirt_permissions.py lines 167-182), taking
the list returned by `groups_service.list(search="name=...")`: when more
than one group matched, the list is filtered by namespace and authz name
and `(filtered or [None])[0]` is returned; otherwise `groups[0]` is
returned directly (an `IndexError` when the search matched nothing). -/
def get_group (nspaceParam authzParam : PyVal) (groups : List OvGroup) :
    Except PyErr (Option OvGroup) :=
  if groups.length > 1 then
    match groups.filter (groupMatches nspaceParam authzParam) with
    | [] => Except.ok Option.none
    | g :: _ => Except.ok (some g)
  else
    match groups with
    | [] => Except.error PyErr.indexError
    | g :: _ => Except.ok (some g)

/-- Translation of `__get_user` (src/library/ovirt_permissions.py lines 156-164), taking
the list returned by the `usrname={name}@{authz_name}` search:
`(users or [None])[0]` — always the first result, with no multiplicity
check. -/
def get_user (users : List OvUser) : Option OvUser :=
  match users with
  | [] => Option.none
  | u :: _ => some u

end PermissionsModule

/-- A VM snapshot as handled by `ovirt_snapshots.py`. -/
structure Snapshot where
  id : String
  status : SnapStatus
  description : PyVal
deriving DecidableEq

/-- The result dict built by the snapshot functions:
`{'changed': ..., 'id': snapshot.id if snapshot else None, 'snapshot': ...}`. -/
structure SnapRes where
  changed : Bool
  id : PyVal
  snapshot : Option Snapshot
deriving DecidableEq

/-- Translation of `create_snapshot` (src/library/ovirt_snapshots.py lines 88-119), as a
function of the check-mode flag and of what
`snapshots_service.snapshot_service(params['snapshot_id']).get()` returned.
The returned trace records the mutating calls and Waiter hand-offs.  When
the snapshot does not exist and check mode is on, the add is suppressed and
`snapshot` stays `None`; the subsequent
`wait(snapshots_service.snapshot_service(snapshot.id), ...)` then
dereferences `None.id` and raises `AttributeError` (so does the result
construction `'id': snapshot.id`). -/
def create_snapshot (checkMode : Bool) (snap : Option Snapshot) (desc : PyVal) :
    Except PyErr (SnapRes × List Ev) :=
  match snap with
  | some s =>
    if s.status ≠ SnapStatus.in_preview then
      Except.ok ({ changed := true, id := PyVal.str s.id, snapshot := some s },
        (if checkMode then [] else [Ev.call "vm.commit_snapshot"]) ++
          [Ev.wait "snapshot status ok"])
    else
      Except.ok ({ changed := false, id := PyVal.str s.id, snapshot := some s }, [])
  | Option.none =>
    if checkMode then
      Except.error PyErr.attributeError
    else
      let s2 : Snapshot := { id := "new-snapshot", status := SnapStatus.locked,
                             description := desc }
      Except.ok ({ changed := true, id := PyVal.str s2.id, snapshot := some s2 },
        [Ev.call "snapshots.add", Ev.wait "snapshot status ok"])

/-- Translation of `remove_snapshot` (src/library/ovirt_snapshots.py lines 122-152):
no snapshot → `changed=False`, `id=None`, no remote call at all; an
`IN_PREVIEW` snapshot is undone (`vm_service.undo_snapshot()`) and waited
to `OK`; otherwise `snapshot_service.remove()` is issued and the wait
condition `lambda snapshot: snapshot is None` polls until the fetch
returns none. -/
def remove_snapshot (checkMode : Bool) (snap : Option Snapshot) : SnapRes × List Ev :=
  match snap with
  | Option.none => ({ changed := false, id := PyVal.none, snapshot := Option.none }, [])
  | some s =>
    if s.status = SnapStatus.in_preview then
      ({ changed := true, id := PyVal.str s.id, snapshot := some s },
        (if checkMode then [] else [Ev.call "vm.undo_snapshot"]) ++
          [Ev.wait "snapshot status ok"])
    else
      ({ changed := true, id := PyVal.str s.id, snapshot := some s },
        (if checkMode then [] else [Ev.call "snapshot.remove"]) ++ [Ev.wait "entity gone"])

/-- Modelled from the spec: the trace of `BaseModule.create`
(`ansible.module_utils.ovirt`, not under `src/`).  On the mutating paths
the engine first invokes the module's Builder (`buildTrace` is whatever
trace that hook produces — the spec's Builder contract is a pure function,
so it is `[]` for most modules, but the storage-domains builder issues a
remote login, see `StorageDomainModule.buildEntityTrace`), then issues the
add or update call (suppressed under check mode, `changed` still set), and
hands control to the Waiter only when a `resultState` predicate was
supplied; the equal path invokes neither the Builder nor any call. -/
def baseCreateTrace (buildTrace : List Ev) (existing updOk checkMode hasResultWait : Bool)
    (addName updName waitName : String) : Bool × List Ev :=
  if existing then
    if updOk then (false, [])
    else (true, buildTrace ++ (if checkMode then [] else [Ev.call updName]) ++
                (if hasResultWait then [Ev.wait waitName] else []))
  else (true, buildTrace ++ (if checkMode then [] else [Ev.call addName]) ++
              (if hasResultWait then [Ev.wait waitName] else []))

/-- Modelled from the spec: the trace of `BaseModule.action`
(`ansible.module_utils.ovirt`, not under `src/`): evaluate the action
condition on the fetched entity; if it holds issue the named action call
(suppressed under check mode); then wait for the wait condition (all the
call sites modelled here supply one). -/
def baseActionTrace (condHolds checkMode : Bool) (callName waitName : String) : List Ev :=
  (if condHolds && !checkMode then [Ev.call callName] else []) ++ [Ev.wait waitName]

/-- Modelled from the spec: the trace of `BaseModule.remove`
(`ansible.module_utils.ovirt`, not under `src/`): absent entity →
`changed=false` and nothing happens; present entity → run the `preRemove`
hook, issue the remove call (suppressed under check mode), then wait until
fetching the entity returns none. -/
def baseRemoveTrace (preTrace : List Ev) (checkMode : Bool) (removeName : String)
    (existing : Bool) : Bool × List Ev :=
  if existing then
    (true, preTrace ++ (if checkMode then [] else [Ev.call removeName]) ++
           [Ev.wait "entity gone"])
  else (false, [])

/-- The poll instants of the Waiter: `0, p, 2p, ...` up to the first
instant at which the timeout has elapsed. -/
def pollTimes (timeout poll : Nat) : List Nat :=
  (List.range (timeout / max poll 1 + 1)).map (fun i => i * max poll 1)

/-- Modelled from the spec: the Waiter (`wait` in
`ansible.module_utils.ovirt`, not under `src/`).  It polls the condition at
a fixed interval, returning the elapsed time of the first successful poll;
if the condition never holds before the timeout elapses it fails with a
Timeout error carrying the elapsed time — a fatal error, not a silent
return, and nothing is rolled back. -/
def waitPoll (cond : Nat → Bool) (timeout poll : Nat) : Except Nat Nat :=
  match (pollTimes timeout poll).find? cond with
  | some t => Except.ok t
  | Option.none => Except.error ((timeout / max poll 1) * max poll 1)

namespace HostsModule

/-- Translation of `HostsModule.pre_remove` (src/library/ovirt_hosts.py lines 150-156):
an `action('deactivate')` gated on `h.status != MAINTENANCE`, waiting for
`h.status == MAINTENANCE`. -/
def preRemoveTrace (st : HostStatus) (checkMode : Bool) : List Ev :=
  baseActionTrace (decide (st ≠ HostStatus.maintenance)) checkMode
    "host.deactivate" "host status maintenance"

/-- The full `remove()` trace of the hosts module for an existing host with
status `st` (spec-modelled `BaseModule.remove` around the source
`pre_remove`). -/
def removeTrace (st : HostStatus) : Bool × List Ev :=
  baseRemoveTrace (preRemoveTrace st false) false "host.remove" true

end HostsModule

/-- The storage backends recognised by `ovirt_storage_domains.py`:
`_get_storage_type` (lines 159-162) returns the first of
`['nfs', 'iscsi', 'posixfs', 'glusterfs', 'fcp']` whose parameter is set
(the `state=present` paths modelled here assume one is configured, as the
module requires to construct `otypes.StorageType`). -/
inductive SdStorageType
  | nfs
  | iscsi
  | posixfs
  | glusterfs
  | fcp
deriving DecidableEq, Fintype

namespace StorageDomainModule

/-- Translation of `StorageDomainModule.build_entity` / `_login`
(src/library/ovirt_storage_domains.py lines 169-185): building the entity
first calls `self._login(storage_type, storage)`, which for an iSCSI
storage type issues `hosts_service.host_service(host.id).iscsi_login(...)`
— a remote action on the host — before the entity is returned (and hence
before the engine's add or update call); every other storage type issues
nothing. -/
def buildEntityTrace (storageType : SdStorageType) : List Ev :=
  if storageType = SdStorageType.iscsi then [Ev.call "host.iscsi_login"] else []

/-- Translation of `StorageDomainModule._maintenance` (src/library/ovirt_storage_domains.py
lines 228-247): nothing when the data center is not found or the domain is
not attached; otherwise, when the attached domain's status is not
`MAINTENANCE`, issue `deactivate()` (suppressed under check mode) and wait
— the wait sits inside the status branch, after the suppressed call. -/
def maintenanceTrace (dcFound : Bool) (attached : Option SdStatus) (checkMode : Bool) :
    List Ev :=
  if dcFound then
    match attached with
    | some st =>
      if st ≠ SdStatus.maintenance then
        (if checkMode then [] else [Ev.call "attached_sd.deactivate"]) ++
          [Ev.wait "sd status maintenance"]
      else []
    | Option.none => []
  else []

/-- Translation of `StorageDomainModule._unattach` (src/library/ovirt_storage_domains.py
lines 249-268): when the attached domain is in `MAINTENANCE`, issue the
detach (`attached_sd_service.remove()`, suppressed under check mode) and
wait until the attached-domain fetch returns none. -/
def unattachTrace (dcFound : Bool) (attached : Option SdStatus) (checkMode : Bool) :
    List Ev :=
  if dcFound then
    match attached with
    | some st =>
      if st = SdStatus.maintenance then
        (if checkMode then [] else [Ev.call "attached_sd.remove"]) ++
          [Ev.wait "sd detached"]
      else []
    | Option.none => []
  else []

/-- Translation of `StorageDomainModule.pre_remove` (lines 270-275): `_maintenance` then
`_unattach`; `st1` and `st2` are the attached-domain statuses fetched by
the two steps (the second fetch happens after the first wait completed). -/
def preRemoveTrace (dcFound : Bool) (st1 st2 : Option SdStatus) (checkMode : Bool) :
    List Ev :=
  maintenanceTrace dcFound st1 checkMode ++ unattachTrace dcFound st2 checkMode

/-- The full `remove()` trace of the storage-domains module
(spec-modelled `BaseModule.remove` around the source `pre_remove`). -/
def removeTrace (dcFound : Bool) (st1 st2 : Option SdStatus) (checkMode sdExists : Bool) :
    Bool × List Ev :=
  baseRemoveTrace (preRemoveTrace dcFound st1 st2 checkMode) checkMode "sd.remove" sdExists

/-- Translation of `StorageDomainModule.post_create_check` (lines 277-296): if the
freshly created domain is not attached to the data center, attach it
(`attached_sds_service.add(...)` — note: not gated on check mode in the
source) and wait until its status is `ACTIVE`. -/
def postCreateCheckTrace (attachedMissing : Bool) : List Ev :=
  if attachedMissing then [Ev.call "attached_sds.add", Ev.wait "sd status active"] else []

/-- The `state=present` path of `ovirt_storage_domains.py` `main()` (lines
347-354): `create()` — whose mutating paths run `build_entity` (including
its `_login` side effect, `buildEntityTrace`) and which is invoked with no
`result_state`, so per the spec the engine does not wait after the add —
then `post_create_check`, then an `action('activate')` gated on
`status == MAINTENANCE`.  `storageType` is the configured storage backend,
`sdExists` / `updOk` describe the initial search, `attachedMissing` the
`post_create_check` fetch, and `actStatus` the status fetched by the
activate action. -/
def presentTrace (storageType : SdStorageType) (sdExists updOk attachedMissing : Bool)
    (actStatus : SdStatus) : List Ev :=
  (baseCreateTrace (buildEntityTrace storageType) sdExists updOk false false
      "sd.add" "sd.update" "sd up").2 ++
  postCreateCheckTrace attachedMissing ++
  baseActionTrace (decide (actStatus = SdStatus.maintenance)) false
    "sd.activate" "sd status active"

end StorageDomainModule

namespace HostPmModule

/-- The `state=stopped` path of `ovirt_host_pm.py` `main()` (lines
215-226): an `action('deactivate')` gated on
`h.status not in [MAINTENANCE, DOWN]` waiting for `MAINTENANCE`, then an
`action('fence', fence_type='stop')` gated on `h.status != DOWN` waiting
for `DOWN`.  `s1` and `s2` are the host statuses fetched by the two
actions. -/
def stoppedTrace (s1 s2 : HostStatus) : List Ev :=
  baseActionTrace
      (decide (s1 ≠ HostStatus.maintenance ∧ s1 ≠ HostStatus.down)) false
      "host.deactivate" "host status maintenance" ++
  baseActionTrace (decide (s2 ≠ HostStatus.down)) false
      "host.fence stop" "host status down"

end HostPmModule

/-- How a module invocation ends. -/
inductive ExitKind
  | exited
  | failed
  | uncaught
deriving DecidableEq

/-- Connection-lifecycle outcome of one module `main()` run: how it ended,
whether `connection.close(...)` ran, and whether the close revoked the
token (`logout=True`). -/
structure MainRun where
  exitKind : ExitKind
  connClosed : Bool
  tokenRevoked : Bool
deriving DecidableEq

/-- The connection lifecycle of `ovirt_snapshots.py` `main()` (lines
209-233).  The connection is created and the parent VM resolved BEFORE the
`try` block whose `finally` performs `connection.close(logout=False)`:
a `search_by_name` failure propagates with the connection left open, and
the `module.exit_json` taken when the VM does not exist (a `SystemExit`)
likewise never reaches the `finally`.  Only once inside the `try` block is
the close guaranteed, on both the success and the `fail_json` path. -/
def snapshotsMainConn (vmLookup : Except Unit (Option Unit)) (bodyFails : Bool) : MainRun :=
  match vmLookup with
  | Except.error _ => { exitKind := ExitKind.uncaught, connClosed := false,
                        tokenRevoked := false }
  | Except.ok Option.none => { exitKind := ExitKind.exited, connClosed := false,
                               tokenRevoked := false }
  | Except.ok (some _) =>
    { exitKind := if bodyFails then ExitKind.failed else ExitKind.exited
      connClosed := true
      tokenRevoked := false }

/-- The connection lifecycle of `ovirt_hosts.py` `main()` (lines 191-226):
`create_connection` sits inside the `try`, so once it succeeds every exit
of the body — normal `exit_json` or a caught `sdk.Error` turned into
`fail_json` — runs `connection.close(logout=False)` in the `finally`.  When
`create_connection` itself raises, no connection exists and the `finally`
raises `NameError` on the unbound `connection` variable: nothing was closed
because nothing was acquired. -/
def hostsMainConn (connAcquired : Bool) (bodyFails : Bool) : MainRun :=
  if connAcquired then
    { exitKind := if bodyFails then ExitKind.failed else ExitKind.exited
      connClosed := true
      tokenRevoked := false }
  else
    { exitKind := ExitKind.uncaught, connClosed := false, tokenRevoked := false }

/-- Two distinct remote groups sharing the searched name `g1` but living in
different namespaces — the ambiguity scenario of the spec's testable
property for the permissions module. -/
def gA : OvGroup :=
  { name := PyVal.str "g1", nspace := PyVal.str "ns1", domainName := PyVal.str "authz1" }

/-- The second same-named group; see `gA`. -/
def gB : OvGroup :=
  { name := PyVal.str "g1", nspace := PyVal.str "ns2", domainName := PyVal.str "authz1" }

theorem equal_true_of {p x : PyVal} (h : p = PyVal.none ∨ pyEq p x = true) :
    equal p x = true := by
  rcases h with rfl | h
  · rfl
  · cases p <;> first | rfl | exact h

/-- C1: the claim says a second `create` with the same comment,
kdump_integration and spm_priority values reports `changed=false`.  The
code disagrees: with `hostsP0` (comment, kdump_integration='enabled',
spm_priority=5 all set), the first create adds the built host and reports
`changed=true`, but the second create ALSO reports `changed=true`, because
`update_check` compares the string parameter `'enabled'` against the
entity's `KdumpStatus` enum member, which never compare equal (the clusters
module wraps its enum attributes in `str(...)` for exactly this reason).
So `update_check` returns false and an update is issued on every run. -/
theorem c1_hosts_second_create_reports_changed :
    HostsModule.create hostsP0 false Option.none =
      Except.ok (true, some (HostsModule.build_entity hostsP0)) ∧
    HostsModule.create hostsP0 false (some (HostsModule.build_entity hostsP0)) =
      Except.ok (true, some (HostsModule.build_entity hostsP0)) ∧
    HostsModule.update_check hostsP0 (HostsModule.build_entity hostsP0) = Except.ok false := by
  refine ⟨rfl, by decide, by decide⟩

/-- C2, counterexample: two distinct groups `gA`, `gB` both match the name
search, no namespace or authz filter is supplied (both params `None`), so
BOTH pass the disambiguation filter — yet `__get_group` returns the first
one instead of failing with an Ambiguous error, and `__get_user` likewise
returns the first of two search results unconditionally. -/
theorem c2_group_lookup_silently_picks_first :
    gA ≠ gB ∧
    PermissionsModule.groupMatches PyVal.none PyVal.none gA = true ∧
    PermissionsModule.groupMatches PyVal.none PyVal.none gB = true ∧
    PermissionsModule.get_group PyVal.none PyVal.none [gA, gB] = Except.ok (some gA) ∧
    PermissionsModule.get_user [{ principal := PyVal.str "u1" },
                                { principal := PyVal.str "u2" }] =
      some { principal := PyVal.str "u1" } := by
  decide

/-- C2, amended: when the group search matches more than one candidate and
the first candidate passes the namespace/authz filter, `__get_group`
returns that first remaining match (no Ambiguous error is ever raised),
and `__get_user` always returns the first search result. -/
theorem c2_lookup_returns_first_match :
    (∀ (ns az : PyVal) (g g2 : OvGroup) (gs : List OvGroup),
        PermissionsModule.groupMatches ns az g = true →
        PermissionsModule.get_group ns az (g :: g2 :: gs) = Except.ok (some g)) ∧
    (∀ (u : OvUser) (us : List OvUser), PermissionsModule.get_user (u :: us) = some u) := by
  constructor
  · intro ns az g g2 gs h
    simp [PermissionsModule.get_group, h]
  · intro u us
    rfl

/-- C2, witness for the amended theorem at a concrete input: a namespace
filter that keeps `gA` makes the two-candidate lookup return `gA`. -/
theorem c2_lookup_returns_first_match_witness :
    PermissionsModule.get_group (PyVal.str "ns1") PyVal.none [gA, gB] =
      Except.ok (some gA) :=
  c2_lookup_returns_first_match.1 (PyVal.str "ns1") PyVal.none gA gB [] (by decide)

/-- C3: a spec field whose desired value is `None` never causes
`update_check` to report inequality — if every non-`None` field of the
spec agrees (under Python equality) with the corresponding value the code
derives from the entity, the networks comparator returns `True` and the
clusters comparator returns `True` (for a well-formed entity whose `cpu`
attribute is populated, since the comparator dereferences `entity.cpu`). -/
theorem c3_none_fields_are_dont_care :
    (∀ (p : NetworkParams) (e : OvNetwork),
        (p.comment = PyVal.none ∨ pyEq p.comment e.comment = true) →
        (p.description = PyVal.none ∨ pyEq p.description e.description = true) →
        (p.vlan_tag = PyVal.none ∨ pyEq p.vlan_tag (vlanIdAttr e.vlan) = true) →
        (p.vm_network = PyVal.none ∨ pyEq p.vm_network (PyVal.bool (truthy e.usages)) = true) →
        NetworksModule.update_check p e = true) ∧
    (∀ (p : ClusterParams) (e : ClusterEntity) (cpu : OvCpu) (minP minE majP majE : PyVal),
        e.cpu = some cpu →
        (p.comment = PyVal.none ∨ pyEq p.comment e.comment = true) →
        (p.description = PyVal.none ∨ pyEq p.description e.description = true) →
        (p.switch_type = PyVal.none ∨ pyEq p.switch_type (pyStr e.switch_type) = true) →
        (p.cpu_arch = PyVal.none ∨ pyEq p.cpu_arch (pyStr cpu.architecture) = true) →
        (p.cpu_type = PyVal.none ∨ pyEq p.cpu_type cpu.type = true) →
        ClustersModule.get_minor (fvOfParam p.compatibility_version) = Except.ok minP →
        ClustersModule.get_minor (fvOfVersion e.version) = Except.ok minE →
        ClustersModule.get_major (fvOfParam p.compatibility_version) = Except.ok majP →
        ClustersModule.get_major (fvOfVersion e.version) = Except.ok majE →
        (minP = PyVal.none ∨ pyEq minP minE = true) →
        (majP = PyVal.none ∨ pyEq majP majE = true) →
        ClustersModule.update_check p e = Except.ok true) := by
  constructor
  · intro p e h1 h2 h3 h4
    simp [NetworksModule.update_check, equal_true_of h1, equal_true_of h2,
      equal_true_of h3, equal_true_of h4]
  · intro p e cpu minP minE majP majE hcpu h1 h2 h3 h4 h5 hminP hminE hmajP hmajE h6 h7
    simp [ClustersModule.update_check, equal_true_of h1, equal_true_of h2,
      equal_true_of h3, hcpu, equal_true_of h4, equal_true_of h5,
      hminP, hminE, hmajP, hmajE, equal_true_of h6, equal_true_of h7]

/-- C3, witness: an all-`None` networks spec against an entity with a
comment, a description, a vlan and usages compares equal, and an all-`None`
clusters spec against a fully populated cluster entity compares equal. -/
theorem c3_none_fields_are_dont_care_witness :
    NetworksModule.update_check
      { name := PyVal.str "n1", comment := PyVal.none, description := PyVal.none,
        datacenter_name := PyVal.none, vlan_tag := PyVal.none, vm_network := PyVal.none }
      { name := PyVal.str "n1", comment := PyVal.str "x", description := PyVal.str "y",
        data_center := Option.none, vlan := some { id := PyVal.int 7 },
        usages := PyVal.strlist ["vm"] } = true ∧
    ClustersModule.update_check
      { name := PyVal.str "c1", datacenter_name := PyVal.none, comment := PyVal.none,
        description := PyVal.none, network := PyVal.none, cpu_arch := PyVal.none,
        cpu_type := PyVal.none, switch_type := PyVal.none,
        compatibility_version := PyVal.none }
      { name := PyVal.str "c1", comment := PyVal.str "z", description := PyVal.none,
        switch_type := PyVal.enum "SwitchType" "legacy",
        cpu := some { architecture := PyVal.enum "Architecture" "x86_64",
                      type := PyVal.str "Intel SandyBridge Family" },
        version := some { major := PyVal.int 4, minor := PyVal.int 0 } } =
      Except.ok true := by
  refine ⟨c3_none_fields_are_dont_care.1 _ _ (Or.inl rfl) (Or.inl rfl) (Or.inl rfl) (Or.inl rfl),
    c3_none_fields_are_dont_care.2 _ _
      { architecture := PyVal.enum "Architecture" "x86_64",
        type := PyVal.str "Intel SandyBridge Family" }
      PyVal.none (PyVal.int 0) PyVal.none (PyVal.int 4) rfl
      (Or.inl rfl) (Or.inl rfl) (Or.inl rfl) (Or.inl rfl) (Or.inl rfl)
      rfl rfl rfl rfl (Or.inl rfl) (Or.inl rfl)⟩

/-- C4: removing a snapshot whose id resolves to no snapshot returns
`changed=false` and `id=None` with an EMPTY remote trace — no remove, no
undo, no wait — in or out of check mode: entity-not-found during a remove
is already-converged, not an error. -/
theorem c4_remove_absent_is_noop (checkMode : Bool) :
    remove_snapshot checkMode Option.none =
      ({ changed := false, id := PyVal.none, snapshot := Option.none }, ([] : List Ev)) := by
  rfl

/-- C5: the claim says a check-mode run completes without error and
reports the `changed` a real run would report.  The code disagrees on the
create_snapshot path: when the snapshot does not exist, the non-check-mode
run adds it and returns `changed=true`, but the check-mode run leaves
`snapshot = None` and then dereferences `snapshot.id`, raising
`AttributeError`.  (The storage-domain `_maintenance` check-mode branch
does suppress its deactivate call, leaving only the Waiter hand-off.) -/
theorem c5_create_snapshot_check_mode_crash :
    create_snapshot true Option.none PyVal.none = Except.error PyErr.attributeError ∧
    (∃ r, create_snapshot false Option.none PyVal.none = Except.ok r ∧
      r.1.changed = true ∧ r.2 = [Ev.call "snapshots.add", Ev.wait "snapshot status ok"]) ∧
    StorageDomainModule.maintenanceTrace true (some SdStatus.active) true =
      [Ev.wait "sd status maintenance"] := by
  refine ⟨rfl, ⟨_, rfl, rfl, rfl⟩, rfl⟩

/-- C6: the claim says the connection is closed on every execution path.
In the snapshots module the connection is acquired and the parent VM
resolved BEFORE the `try/finally`: when the VM does not exist
(`exit_json` early return) or the lookup raises, `connection.close` never
runs.  Inside the guarded region — and in the hosts module, whose
`create_connection` sits inside the `try` — the close does run on success
and on failure alike, always with `logout=False` (token not revoked). -/
theorem c6_snapshots_connection_left_open :
    (snapshotsMainConn (Except.ok Option.none) false).connClosed = false ∧
    (snapshotsMainConn (Except.error ()) false).connClosed = false ∧
    (∀ bodyFails : Bool,
      (snapshotsMainConn (Except.ok (some ())) bodyFails).connClosed = true ∧
      (snapshotsMainConn (Except.ok (some ())) bodyFails).tokenRevoked = false ∧
      (hostsMainConn true bodyFails).connClosed = true ∧
      (hostsMainConn true bodyFails).tokenRevoked = false) := by
  refine ⟨rfl, rfl, ?_⟩
  intro b
  cases b <;> exact ⟨rfl, rfl, rfl, rfl⟩

/-- C7, counterexample: the storage-domains `state=present` path against an
absent NFS domain issues TWO mutating calls — the domain `add` (no
`result_state` was passed, so the engine does not wait) and then the
attach `add` of `post_create_check` — before control first returns to the
Waiter, violating the at-most-one-mutation-before-the-Waiter invariant;
and against an absent iSCSI domain it issues THREE, because
`build_entity`'s `_login` performs the remote `iscsi_login` action on the
host before the add, so even an at-most-two bound fails there. -/
theorem c7_sd_present_two_mutations_before_wait :
    StorageDomainModule.presentTrace SdStorageType.nfs false true true SdStatus.active =
      [Ev.call "sd.add", Ev.call "attached_sds.add",
       Ev.wait "sd status active", Ev.wait "sd status active"] ∧
    waiterOkUpTo 1
        (StorageDomainModule.presentTrace SdStorageType.nfs false true true SdStatus.active) =
      false ∧
    StorageDomainModule.presentTrace SdStorageType.iscsi false true true SdStatus.active =
      [Ev.call "host.iscsi_login", Ev.call "sd.add", Ev.call "attached_sds.add",
       Ev.wait "sd status active", Ev.wait "sd status active"] ∧
    waiterOkUpTo 2
        (StorageDomainModule.presentTrace SdStorageType.iscsi false true true SdStatus.active) =
      false := by
  decide

/-- C7, amended: the host-pm `state=stopped` path (deactivate then fence)
does satisfy the invariant — each mutation is handed to the Waiter before
the next — for every pair of fetched host statuses.  The storage-domains
`state=present` path only satisfies weaker bounds, for every storage
backend, search outcome and fetched status: at most THREE mutations ahead
of the completed waits in general (the builder's `iscsi_login`, the
un-waited domain add, and the attach), and at most TWO when the storage
type is not iSCSI, where the builder issues no remote call. -/
theorem c7_at_most_one_mutation_per_wait_amended :
    (∀ s1 s2 : HostStatus, waiterOkUpTo 1 (HostPmModule.stoppedTrace s1 s2) = true) ∧
    (∀ (stype : SdStorageType) (sdExists updOk attachedMissing : Bool)
        (actStatus : SdStatus),
      waiterOkUpTo 3
        (StorageDomainModule.presentTrace stype sdExists updOk attachedMissing actStatus) =
        true) ∧
    (∀ (stype : SdStorageType) (sdExists updOk attachedMissing : Bool)
        (actStatus : SdStatus),
      stype ≠ SdStorageType.iscsi →
      waiterOkUpTo 2
        (StorageDomainModule.presentTrace stype sdExists updOk attachedMissing actStatus) =
        true) := by
  refine ⟨by decide, by decide, ?_⟩
  intro stype sdExists updOk attachedMissing actStatus hs
  cases stype
  case iscsi => exact absurd rfl hs
  all_goals revert sdExists updOk attachedMissing actStatus; decide

/-- C7, witness for the amended theorem: the non-iSCSI bound at a concrete
input (an absent NFS domain that gets attached and activated). -/
theorem c7_at_most_one_mutation_per_wait_amended_witness :
    waiterOkUpTo 2
        (StorageDomainModule.presentTrace SdStorageType.nfs false true true
          SdStatus.active) =
      true :=
  c7_at_most_one_mutation_per_wait_amended.2.2 SdStorageType.nfs false true true
    SdStatus.active (by decide)

/-- C8: removing an existing entity always runs in the order quiesce →
remove → wait-until-gone.  For a host of any status, `pre_remove`
deactivates it (skipping the call when it is already in MAINTENANCE) and
waits for MAINTENANCE before the remove call, which is followed by the
wait for disappearance; for an attached active storage domain the order is
deactivate, wait for MAINTENANCE, detach, wait for detachment, remove,
wait for disappearance; an existing non-preview snapshot is removed and
then waited until the fetch returns none. -/
theorem c8_remove_order :
    (∀ st : HostStatus,
      HostsModule.removeTrace st =
        (true,
          (if st = HostStatus.maintenance then ([] : List Ev)
           else [Ev.call "host.deactivate"]) ++
          [Ev.wait "host status maintenance", Ev.call "host.remove",
           Ev.wait "entity gone"])) ∧
    StorageDomainModule.removeTrace true (some SdStatus.active)
        (some SdStatus.maintenance) false true =
      (true,
        [Ev.call "attached_sd.deactivate", Ev.wait "sd status maintenance",
         Ev.call "attached_sd.remove", Ev.wait "sd detached",
         Ev.call "sd.remove", Ev.wait "entity gone"]) ∧
    (∀ sid : String,
      (remove_snapshot false
          (some { id := sid, status := SnapStatus.ok, description := PyVal.none })).2 =
        [Ev.call "snapshot.remove", Ev.wait "entity gone"]) := by
  refine ⟨by decide, by decide, ?_⟩
  intro sid
  rfl

/-- C9: a wait whose condition never becomes true fails with a Timeout
error whose elapsed time, for `timeout=2` and `poll=1`, lies in the 2-3
second window — it neither returns silently nor polls forever — and the
mutation that preceded the wait (the storage-domain deactivate of
`_maintenance`) is not rolled back: the trace ends after the Waiter
hand-off, with no further remote call. -/
theorem c9_wait_timeout_fatal (cond : Nat → Bool) (h : ∀ t, cond t = false) :
    (∃ te, waitPoll cond 2 1 = Except.error te ∧ 2 ≤ te ∧ te ≤ 3) ∧
    StorageDomainModule.maintenanceTrace true (some SdStatus.active) false =
      [Ev.call "attached_sd.deactivate", Ev.wait "sd status maintenance"] := by
  refine ⟨⟨2, ?_, by decide, by decide⟩, by decide⟩
  have hp : pollTimes 2 1 = [0, 1, 2] := by decide
  simp [waitPoll, hp, List.find?, h]

/-- C9, witness: the constantly-false condition. -/
theorem c9_wait_timeout_fatal_witness :
    (∃ te, waitPoll (fun _ => false) 2 1 = Except.error te ∧ 2 ≤ te ∧ te ≤ 3) ∧
    StorageDomainModule.maintenanceTrace true (some SdStatus.active) false =
      [Ev.call "attached_sd.deactivate", Ev.wait "sd status maintenance"] :=
  c9_wait_timeout_fatal (fun _ => false) (fun _ => rfl)

/-- C10: a networks spec with `vm_network=False` is built with the
one-element usages list `['']`; `update_check` then derives `vm_network`
as the truthiness of that non-empty list, i.e. `True`, so the comparator
reports unequal against the very entity the spec builds, and `create`
against a converged remote reports `changed=true` — such a spec never
reaches a fixed point. -/
theorem c10_vm_network_false_never_converges (p : NetworkParams)
    (h : p.vm_network = PyVal.bool false) :
    (NetworksModule.build_entity p).usages = PyVal.strlist [""] ∧
    NetworksModule.update_check p (NetworksModule.build_entity p) = false ∧
    (NetworksModule.create p false (some (NetworksModule.build_entity p))).1 = true := by
  have hu : (NetworksModule.build_entity p).usages = PyVal.strlist [""] := by
    simp [NetworksModule.build_entity, h, truthy]
  have hc : NetworksModule.update_check p (NetworksModule.build_entity p) = false := by
    simp [NetworksModule.update_check, hu, h, truthy, equal, pyEq]
  exact ⟨hu, hc, by simp [NetworksModule.create, hc]⟩

/-- C10, witness: a concrete spec with `vm_network=False`. -/
theorem c10_vm_network_false_never_converges_witness :
    (NetworksModule.build_entity
        { name := PyVal.str "n1", comment := PyVal.none, description := PyVal.none,
          datacenter_name := PyVal.none, vlan_tag := PyVal.none,
          vm_network := PyVal.bool false }).usages = PyVal.strlist [""] ∧
    NetworksModule.update_check
        { name := PyVal.str "n1", comment := PyVal.none, description := PyVal.none,
          datacenter_name := PyVal.none, vlan_tag := PyVal.none,
          vm_network := PyVal.bool false }
        (NetworksModule.build_entity
          { name := PyVal.str "n1", comment := PyVal.none, description := PyVal.none,
            datacenter_name := PyVal.none, vlan_tag := PyVal.none,
            vm_network := PyVal.bool false }) = false ∧
    (NetworksModule.create
        { name := PyVal.str "n1", comment := PyVal.none, description := PyVal.none,
          datacenter_name := PyVal.none, vlan_tag := PyVal.none,
          vm_network := PyVal.bool false } false
        (some (NetworksModule.build_entity
          { name := PyVal.str "n1", comment := PyVal.none, description := PyVal.none,
            datacenter_name := PyVal.none, vlan_tag := PyVal.none,
            vm_network := PyVal.bool false }))).1 = true :=
  c10_vm_network_false_never_converges _ rfl

end Ovirt



